import Mathlib

/-!
Shallow embedding of `smach_ros/service_state.py` (class `ServiceState`):
the request/response policies, the `execute` method and the completion
condition used by `_done_cb`.
-/

namespace ServiceStateModel

/-- Dynamic values stored in the userdata blackboard and in message fields.
`vnone` models Python `None`; `vmsg` models a message object with named
attributes (request and response payloads). -/
inductive UVal where
  | vnone : UVal
  | vint : Int → UVal
  | vmsg : List (String × UVal) → UVal

mutual

/-- Decidable equality on dynamic values (hand rolled: the nested list keeps
the derive handler from producing it). -/
def UVal.decEq : (a b : UVal) → Decidable (a = b)
  | .vnone, .vnone => isTrue rfl
  | .vnone, .vint _ => isFalse (fun h => UVal.noConfusion h)
  | .vnone, .vmsg _ => isFalse (fun h => UVal.noConfusion h)
  | .vint _, .vnone => isFalse (fun h => UVal.noConfusion h)
  | .vint m, .vint n =>
    match Int.decEq m n with
    | isTrue h => isTrue (by rw [h])
    | isFalse h => isFalse (fun hh => h (UVal.vint.inj hh))
  | .vint _, .vmsg _ => isFalse (fun h => UVal.noConfusion h)
  | .vmsg _, .vnone => isFalse (fun h => UVal.noConfusion h)
  | .vmsg _, .vint _ => isFalse (fun h => UVal.noConfusion h)
  | .vmsg fs, .vmsg gs =>
    match UVal.decEqFields fs gs with
    | isTrue h => isTrue (by rw [h])
    | isFalse h => isFalse (fun hh => h (UVal.vmsg.inj hh))

/-- Decidable equality on attribute lists of dynamic values. -/
def UVal.decEqFields : (a b : List (String × UVal)) → Decidable (a = b)
  | [], [] => isTrue rfl
  | [], _ :: _ => isFalse (fun h => List.noConfusion h)
  | _ :: _, [] => isFalse (fun h => List.noConfusion h)
  | (k, v) :: r, (k2, v2) :: r2 =>
    match String.decEq k k2, UVal.decEq v v2, UVal.decEqFields r r2 with
    | isTrue h1, isTrue h2, isTrue h3 => isTrue (by rw [h1, h2, h3])
    | isFalse h1, _, _ =>
        isFalse (fun hh => by
          injection hh with hhd hht
          injection hhd with hk hv
          exact h1 hk)
    | _, isFalse h2, _ =>
        isFalse (fun hh => by
          injection hh with hhd hht
          injection hhd with hk hv
          exact h2 hv)
    | _, _, isFalse h3 =>
        isFalse (fun hh => by
          injection hh with hhd hht
          exact h3 hht)

end

instance : DecidableEq UVal := UVal.decEq

/-- Lookup of an attribute in a field list (Python `getattr`, as a total map). -/
def getField : List (String × UVal) → String → Option UVal
  | [], _ => none
  | (k', v') :: rest, k => if k' = k then some v' else getField rest k

/-- Update of an attribute in a field list (Python `setattr` on an object). -/
def setField : List (String × UVal) → String → UVal → List (String × UVal)
  | [], k, v => [(k, v)]
  | (k', v') :: rest, k, v =>
      if k' = k then (k, v) :: rest else (k', v') :: setField rest k v

/-- True exactly on message objects: `setattr`/`getattr` succeed only there. -/
def UVal.isMsg : UVal → Bool
  | .vmsg _ => true
  | _ => false

/-- The smach userdata blackboard: a mapping from string keys to values. -/
structure UserData where
  entries : List (String × UVal)
deriving DecidableEq

/-- Python `key in ud` / `ud[key]` read access, as a total lookup. -/
def UserData.lookup (ud : UserData) (k : String) : Option UVal :=
  getField ud.entries k

/-- Python `ud[key] = v`. -/
def UserData.set (ud : UserData) (k : String) (v : UVal) : UserData :=
  ⟨setField ud.entries k v⟩

/-- Python `list(ud.keys())`, used in the diagnostics of `execute`. -/
def UserData.keys (ud : UserData) : List String :=
  ud.entries.map Prod.fst

/-- Python exceptions that the embedding distinguishes.  `execute` catches
`TypeError` at call submission (line 192) and nothing else by class, so only
the classes that the control flow discriminates on are separated. -/
inductive PyExc where
  | typeError (msg : String)
  | attributeError (attr : String)
  | nameError (nm : String)
  | otherError (tag : String)
deriving DecidableEq

/-- True exactly on `TypeError`, the only class caught at submission. -/
def PyExc.isTypeError : PyExc → Bool
  | .typeError _ => true
  | _ => false

/-- Log messages emitted by `execute`, kept structural so that theorems can
speak about the diagnostic naming a missing key. -/
inductive LogMsg where
  | preemptBefore (srv : String)
  | preemptWaiting (srv : String)
  | shutdownWaiting (srv : String)
  | terminatedWaiting (srv : String)
  | connected (srv : String)
  | stillWaiting (srv : String)
  | missingRequestKey (key : String) (avail : List String)
  | missingRequestSlot (key : String) (avail : List String)
  | noRequest (srv : String)
  | callingService (srv : String)
  | submitError (srv : String)
  | invalidOutcome (srv : String) (outcome : String) (registered : List String)
deriving DecidableEq

/-- How one invocation of `execute` terminates: with an outcome label, with a
Python exception escaping to the caller, or never (a blocked wait). -/
inductive ExecResult where
  | outcome (s : String)
  | raised (e : PyExc)
  | hang
deriving DecidableEq

/-- Behaviour of the async call submission and of the remote service, chosen
by the environment: the submission raises synchronously, or the call completes
and `_done_cb` delivers a response, or the call never completes. -/
inductive SubmitBehavior where
  | raises (e : PyExc)
  | completes (resp : UVal)
  | hangs

/-- A request callback: receives (a view of) the userdata and the current
request, may mutate the userdata, and either raises or returns an optional
replacement request (Python return value `None` or a request object). -/
def RequestCb : Type :=
  UserData → UVal → UserData × Except PyExc (Option UVal)

/-- A response callback: receives (a view of) the userdata and the response,
may mutate the userdata, and either raises or returns an optional outcome
label (Python return value `None` or a string). -/
def ResponseCb : Type :=
  UserData → UVal → UserData × Except PyExc (Option String)

/-- The per-step state of a `ServiceState` object: configuration stored by
`__init__` plus the attributes that `execute` and `_done_cb` mutate
(`_request`, `_response`).  `done_cond_id` is the identity of the
`threading.Condition` object allocated at line 111. -/
structure ServiceState where
  service_name : String
  request : UVal
  request_cb : Option RequestCb
  request_key : Option String
  request_slots : List String
  response_cb : Option ResponseCb
  response_key : Option String
  response_slots : List String
  registered_outcomes : List String
  response : Option UVal
  done_cond_id : Nat

/-- Constructor mirroring `ServiceState.__init__`: the default request is a
fresh `service_spec.Request()` when the `request` argument is `None`
(lines 49-52); the registered outcomes are the base labels from
`RosState.__init__` (line 41) plus the outcomes contributed by the response
callback (line 93 or 97) plus the explicit `outcomes` argument (line 102);
`_response` does not exist yet; the completion condition is allocated here
(line 111) and nowhere else. -/
def mkServiceState (cond_id : Nat) (service_name : String)
    (request : Option UVal) (request_cb : Option RequestCb)
    (request_key : Option String) (request_slots : List String)
    (response_cb : Option ResponseCb) (response_cb_outcomes : List String)
    (response_key : Option String) (response_slots : List String)
    (outcomes : List String) : ServiceState :=
  { service_name := service_name
    request := match request with
      | none => .vmsg []
      | some r => r
    request_cb := request_cb
    request_key := request_key
    request_slots := request_slots
    response_cb := response_cb
    response_key := response_key
    response_slots := response_slots
    registered_outcomes :=
      ["succeeded", "aborted", "preempted"] ++ response_cb_outcomes ++ outcomes
    response := none
    done_cond_id := cond_id }

/-- Environment of one invocation: the preemption flag sampled at line 118,
the per-iteration behaviour of the readiness loop (lines 126-143), and the
behaviour of the call submission. -/
structure Env where
  preemptStart : Bool
  waitExc : Nat → Bool
  ready : Nat → Bool
  preemptWait : Nat → Bool
  ok : Nat → Bool
  waitOk : Nat → Bool
  submit : SubmitBehavior

/-- Everything observable about one invocation of `execute`: its result, the
object state it leaves behind, the userdata it leaves behind, the log it
emitted, whether `service_preempt` was called, and the requests passed to
`call_async`. -/
structure ExecOut where
  result : ExecResult
  state : ServiceState
  ud : UserData
  log : List LogMsg
  preemptAcked : Bool
  calls : List UVal

/-- Result of the readiness loop of lines 125-143: either fall through to the
request construction, or return early from `execute`. -/
inductive WaitOut where
  | proceed (log : List LogMsg)
  | finish (r : ExecResult) (log : List LogMsg) (acked : Bool)
deriving DecidableEq

/-- The readiness loop (lines 125-143).  Iteration `i` samples the
environment: a raised exception anywhere in the iteration hits the bare
`except` (lines 140-143, `aborted`); otherwise `service_is_ready` (line 126)
exits the loop; then preemption (lines 127-131, `preempted` with
acknowledgement), shutdown (lines 132-135, `aborted`) and
`wait_for_service(1.0)` (lines 136-139, logging only) are checked in source
order.  `fuel` bounds the modelled horizon; beyond it the unbounded Python
loop is reported as `hang`. -/
def waitLoop (sname : String) (env : Env) (fuel i : Nat) (log : List LogMsg) :
    WaitOut :=
  if env.waitExc i then
    .finish (.outcome "aborted") (log ++ [.terminatedWaiting sname]) false
  else if env.ready i then
    .proceed log
  else if env.preemptWait i then
    .finish (.outcome "preempted") (log ++ [.preemptWaiting sname]) true
  else if env.ok i = false then
    .finish (.outcome "aborted") (log ++ [.shutdownWaiting sname]) false
  else
    match fuel with
    | 0 => .finish .hang log false
    | fuel' + 1 =>
      waitLoop sname env fuel' (i + 1)
        (log ++ [if env.waitOk i then .connected sname else .stillWaiting sname])

/-- Result of the slot-copy loop of lines 154-161 over the request object. -/
inductive SlotStep where
  | done (r : UVal)
  | missing (r : UVal) (k : String)
  | setattrExc (r : UVal) (k : String)
deriving DecidableEq

/-- The request slot-copy loop (lines 154-161): for each configured slot key,
`key in ud` is tested and `setattr(self._request, key, ud[key])` is applied;
a missing key ends the loop (return `aborted`), and `setattr` on a value that
is not a message object raises `AttributeError`.  The partially updated
request is returned in every case, because the Python loop mutates
`self._request` in place. -/
def applySlots (r : UVal) (slots : List String) (ud : UserData) : SlotStep :=
  match slots with
  | [] => .done r
  | k :: ks =>
    match ud.lookup k with
    | none => .missing r k
    | some v =>
      match r with
      | .vmsg fs => applySlots (.vmsg (setField fs k v)) ks ud
      | _ => .setattrExc r k

/-- The response slot-copy loop (lines 224-225): `ud[key] =
getattr(self._response, key)` for each configured response slot; a missing
attribute (or a response that is not a message object) raises
`AttributeError`, with the userdata writes of earlier iterations kept. -/
def copyResponseSlots (resp : UVal) (slots : List String) (ud : UserData) :
    UserData × Option String :=
  match slots with
  | [] => (ud, none)
  | k :: ks =>
    match resp with
    | .vmsg fs =>
      match getField fs k with
      | some v => copyResponseSlots resp ks (ud.set k v)
      | none => (ud, some k)
    | _ => (ud, some k)

/-- Result of the request-construction block: fall through to dispatch with
the updated object state and userdata, or return early from `execute`. -/
inductive PhaseRes where
  | go (s : ServiceState) (ud : UserData) (log : List LogMsg)
  | exit (out : ExecOut)

/-- The null-request check (lines 177-180): calling the service with no
request is refused with `aborted`. -/
def nullCheckPhase (s3 : ServiceState) (ud1 : UserData) (log1 : List LogMsg) :
    PhaseRes :=
  match s3.request with
  | .vnone => .exit
      { result := .outcome "aborted", state := s3, ud := ud1,
        log := log1 ++ [.noRequest s3.service_name],
        preemptAcked := false, calls := [] }
  | _ => .go s3 ud1 log1

/-- The request-callback block (lines 163-175): the user callback receives
the userdata view and the current request; a non-null return value replaces
the request.  There is no enclosing `try`, so a raised exception escapes
`execute`. -/
def requestCbPhase (s2 : ServiceState) (ud : UserData) (log1 : List LogMsg) :
    PhaseRes :=
  match s2.request_cb with
  | none => nullCheckPhase s2 ud log1
  | some cb =>
    match cb ud s2.request with
    | (ud1, Except.error e) => .exit
        { result := .raised e, state := s2, ud := ud1, log := log1,
          preemptAcked := false, calls := [] }
    | (ud1, Except.ok none) => nullCheckPhase s2 ud1 log1
    | (ud1, Except.ok (some r1)) =>
        nullCheckPhase { s2 with request := r1 } ud1 log1

/-- The request slot-copy block (lines 154-161), continuing with the
callback block; a missing slot key is logged and aborts the step. -/
def requestSlotsPhase (s1 : ServiceState) (ud : UserData)
    (log1 : List LogMsg) : PhaseRes :=
  match applySlots s1.request s1.request_slots ud with
  | .missing r k => .exit
      { result := .outcome "aborted", state := { s1 with request := r },
        ud := ud, log := log1 ++ [.missingRequestSlot k ud.keys],
        preemptAcked := false, calls := [] }
  | .setattrExc r k => .exit
      { result := .raised (.attributeError k), state := { s1 with request := r },
        ud := ud, log := log1, preemptAcked := false, calls := [] }
  | .done r => requestCbPhase { s1 with request := r } ud log1

/-- Request construction (lines 145-180): the blackboard-keyed replacement
(146-152, a missing key is logged and aborts the step), then the slot copies
(154-161), then the request callback (163-175), then the null-request check
(177-180).  Every mutation of `self._request` is recorded in the returned
state, including on the failing paths. -/
def requestPhase (s : ServiceState) (ud : UserData) (log0 : List LogMsg) :
    PhaseRes :=
  match s.request_key with
  | none => requestSlotsPhase s ud log0
  | some k =>
    match ud.lookup k with
    | some v => requestSlotsPhase { s with request := v } ud log0
    | none => .exit
        { result := .outcome "aborted", state := s, ud := ud,
          log := log0 ++ [.missingRequestKey k ud.keys],
          preemptAcked := false, calls := [] }

/-- Result of the response-callback block of lines 199-219: fall through with
the outcome returned by the callback (if any), or the invalid-outcome error
return, or the raising path of the broken exception handler. -/
inductive RespCbRes where
  | go (outcome : Option String) (ud2 : UserData)
  | invalid (lbl : String) (ud2 : UserData)
  | raise (ud2 : UserData)

/-- The response-callback block (lines 199-219).  The callback is invoked
with the stored response; a returned label outside the registered outcomes
is the `invalid` case (lines 212-215, logged and `aborted`).  The bare
`except` (line 216) catches a raised exception, but its handler (line 218)
evaluates `traceback.format_exc()` and the module `traceback` is never
imported, so the handler itself raises `NameError`: the `raise` case, which
escapes `execute` instead of reaching the `return` on line 219. -/
def responseCbPhase (s4 : ServiceState) (ud1 : UserData) (resp : UVal) :
    RespCbRes :=
  match s4.response_cb with
  | none => .go none ud1
  | some cb =>
    match cb ud1 resp with
    | (ud2, Except.error _) => .raise ud2
    | (ud2, Except.ok none) => .go none ud2
    | (ud2, Except.ok (some lbl)) =>
      if lbl ∈ s4.registered_outcomes then .go (some lbl) ud2
      else .invalid lbl ud2

/-- The response-key write of lines 221-222. -/
def responseKeyWrite (s : ServiceState) (ud : UserData) (resp : UVal) :
    UserData :=
  match s.response_key with
  | none => ud
  | some rk => ud.set rk resp

/-- The `execute` method (lines 115-230): preemption gate, readiness loop,
request construction, dispatch under `self._done_cond` with only `TypeError`
caught (lines 185-197), delivery of the response by `_done_cb`
(lines 239-241), response callback, response-key write (lines 221-222),
response slot copies (lines 224-225) and outcome resolution (lines 227-230). -/
def execute (s : ServiceState) (env : Env) (fuel : Nat) (ud : UserData) :
    ExecOut :=
  -- Check for preemption before executing (lines 117-122)
  if env.preemptStart then
    { result := .outcome "preempted", state := s, ud := ud,
      log := [.preemptBefore s.service_name], preemptAcked := true, calls := [] }
  else
    match waitLoop s.service_name env fuel 0 [] with
    | .finish r log acked =>
        { result := r, state := s, ud := ud, log := log,
          preemptAcked := acked, calls := [] }
    | .proceed log0 =>
      match requestPhase s ud log0 with
      | .exit out => out
      | .go s3 ud1 log1 =>
        -- Call service (lines 182-197): submission under the condition and
        -- the executor tasks lock; only TypeError is caught
        let log2 := log1 ++ [.callingService s3.service_name]
        match env.submit with
        | .raises e =>
          if e.isTypeError then
            { result := .outcome "aborted", state := s3, ud := ud1,
              log := log2 ++ [.submitError s3.service_name],
              preemptAcked := false, calls := [] }
          else
            { result := .raised e, state := s3, ud := ud1, log := log2,
              preemptAcked := false, calls := [] }
        | .hangs =>
            { result := .hang, state := s3, ud := ud1, log := log2,
              preemptAcked := false, calls := [s3.request] }
        | .completes resp =>
          -- _done_cb stores future.result() in self._response (lines 239-241)
          let s4 := { s3 with response := some resp }
          match responseCbPhase s4 ud1 resp with
          | .raise ud2 =>
              { result := .raised (.nameError "traceback"), state := s4,
                ud := ud2, log := log2, preemptAcked := false,
                calls := [s3.request] }
          | .invalid lbl ud2 =>
              { result := .outcome "aborted", state := s4, ud := ud2,
                log := log2 ++
                  [.invalidOutcome s4.service_name lbl s4.registered_outcomes],
                preemptAcked := false, calls := [s3.request] }
          | .go outcome1 ud2 =>
            -- Write the response to the response key (lines 221-222)
            let ud3 := responseKeyWrite s4 ud2 resp
            -- Copy response slots into userdata (lines 224-225)
            match copyResponseSlots resp s4.response_slots ud3 with
            | (ud4, some k) =>
                { result := .raised (.attributeError k), state := s4, ud := ud4,
                  log := log2, preemptAcked := false, calls := [s3.request] }
            | (ud4, none) =>
                -- Outcome resolution (lines 227-230)
                { result := .outcome (match outcome1 with
                    | some l => l
                    | none => "succeeded"),
                  state := s4, ud := ud4, log := log2,
                  preemptAcked := false, calls := [s3.request] }

/-- The blackboard-keyed replacement as a request source (lines 146-152):
keeps the incoming request when no key is configured, replaces it wholesale
when the key is present, fails when the lookup fails. -/
def keyStage (rk : Option String) (ud : UserData) (r : UVal) : Option UVal :=
  match rk with
  | none => some r
  | some k => ud.lookup k

/-- The slot copies as a request source (lines 154-161): overwrite the named
fields of the incoming request from the blackboard, failing when a key is
missing or the request has no attributes. -/
def slotsStage (slots : List String) (ud : UserData) (r : UVal) : Option UVal :=
  match applySlots r slots ud with
  | .done r2 => some r2
  | _ => none

/-- The user request callback as a request source (lines 163-175): a non-null
return value replaces the incoming request, a null return keeps it, a raise
fails the construction. -/
def cbStage (rcb : Option RequestCb) (ud : UserData) (r : UVal) : Option UVal :=
  match rcb with
  | none => some r
  | some cb =>
    match cb ud r with
    | (_, Except.ok none) => some r
    | (_, Except.ok (some r3)) => some r3
    | (_, Except.error _) => none

/-- The null-request gate (lines 177-180) as a request source. -/
def nullStage (r : UVal) : Option UVal :=
  match r with
  | .vnone => none
  | _ => some r

/-- The value of `self._request` right after the blackboard-keyed replacement
step (lines 145-152). -/
def requestAfterKey (s : ServiceState) (ud : UserData) : Option UVal :=
  keyStage s.request_key ud s.request

/-- Request-construction precedence exactly as the specification sentence
orders it: explicit default first, then blackboard-slot field copies, then
the full blackboard-keyed replacement, then the request callback replacement,
each later source overriding the earlier ones when present.  `none` models a
failing construction.  This definition follows the words of the spec and is
compared against the source-derived `execute`. -/
def requestClaimOrder (s : ServiceState) (ud : UserData) : Option UVal :=
  ((((slotsStage s.request_slots ud s.request).bind
    (keyStage s.request_key ud)).bind
    (cbStage s.request_cb ud)).bind nullStage)

/-- Request-construction precedence as the source orders it: explicit default
first, then the full blackboard-keyed replacement, then the blackboard-slot
field copies, then the request callback replacement, ending with the null
check before dispatch. -/
def requestCodeOrder (s : ServiceState) (ud : UserData) : Option UVal :=
  ((((keyStage s.request_key ud s.request).bind
    (slotsStage s.request_slots ud)).bind
    (cbStage s.request_cb ud)).bind nullStage)

/-- Preemption is requested and observed during the readiness loop: some
iteration reachable within `fuel` sees the preempt flag, with every earlier
iteration neither raising, nor ready, nor preempted, nor shut down. -/
def preemptDuringWait (env : Env) : Nat → Nat → Prop
  | fuel, i =>
    env.waitExc i = false ∧ env.ready i = false ∧
      (env.preemptWait i = true ∨
        (env.preemptWait i = false ∧ env.ok i = true ∧
          match fuel with
          | 0 => False
          | fuel' + 1 => preemptDuringWait env fuel' (i + 1)))

/-- An environment whose service is ready at once and never preempts nor
shuts down, with a chosen submission behaviour; used to instantiate the
theorems on concrete runs. -/
def envReady (sb : SubmitBehavior) : Env :=
  { preemptStart := false, waitExc := fun _ => false, ready := fun _ => true,
    preemptWait := fun _ => false, ok := fun _ => true, waitOk := fun _ => true,
    submit := sb }

/-! ### Interleaving model of the dispatch critical section

Lines 185-197 of `execute` (thread W) and `_done_cb` at lines 232-241
(thread D, run by the client executor) synchronise through
`self._done_cond`.  W acquires the condition lock, performs the call
submission and the completion-handler registration as one atomic step (the
`executor._tasks_lock` block), and calls `wait()`, which atomically releases
the lock and joins the wait set.  D runs only after the handler is
registered; it acquires the condition lock, stores the response and calls
`notify()`, which wakes a waiter when one is in the wait set and is lost
otherwise.  The model enumerates every interleaving of these two threads. -/

/-- Joint state of the two threads around `self._done_cond`: program
counters, lock owner (0 free, 1 W, 2 D), whether the completion handler has
been registered, the condition wait set and wake flag for W, whether
`_done_cb` has stored the response, and whether W read it after waking. -/
structure BridgeSt where
  wpc : Nat
  dpc : Nat
  lock : Nat
  registered : Bool
  inWaitset : Bool
  notified : Bool
  responseWritten : Bool
  observed : Bool
deriving DecidableEq

/-- Initial state: W before line 185, D not yet runnable. -/
def bridgeInit : BridgeSt :=
  { wpc := 0, dpc := 0, lock := 0, registered := false, inWaitset := false,
    notified := false, responseWritten := false, observed := false }

/-- All interleaving successors of a state.  W: acquire the condition
(line 185), submit and register atomically (lines 189-191), enter
`wait()` releasing the lock into the wait set (line 197), reacquire after a
wake, read `self._response` and release.  D: acquire the condition
(line 239), store the response (line 240), `notify()` (line 241) which is
lost when the wait set is empty, release. -/
def bridgeSuccs (s : BridgeSt) : List BridgeSt :=
  (if s.wpc = 0 ∧ s.lock = 0 then [{ s with lock := 1, wpc := 1 }] else []) ++
  (if s.wpc = 1 then [{ s with registered := true, wpc := 2 }] else []) ++
  (if s.wpc = 2 then [{ s with lock := 0, inWaitset := true, wpc := 3 }] else []) ++
  (if s.wpc = 3 ∧ s.notified = true ∧ s.lock = 0 then
    [{ s with lock := 1, wpc := 4 }] else []) ++
  (if s.wpc = 4 then
    [{ s with observed := s.responseWritten, lock := 0, wpc := 5 }] else []) ++
  (if s.dpc = 0 ∧ s.registered = true ∧ s.lock = 0 then
    [{ s with lock := 2, dpc := 1 }] else []) ++
  (if s.dpc = 1 then [{ s with responseWritten := true, dpc := 2 }] else []) ++
  (if s.dpc = 2 then
    [if s.inWaitset then { s with inWaitset := false, notified := true, dpc := 3 }
     else { s with dpc := 3 }] else []) ++
  (if s.dpc = 3 then [{ s with lock := 0, dpc := 4 }] else [])

/-- Accumulate the states of `xs` not yet present in `acc`. -/
def addNew (acc xs : List BridgeSt) : List BridgeSt :=
  xs.foldl (fun a x => if x ∈ a then a else a ++ [x]) acc

/-- Breadth-first closure of the successor relation, up to `n` rounds. -/
def bridgeReach : Nat → List BridgeSt → List BridgeSt
  | 0, acc => acc
  | n + 1, acc =>
      bridgeReach n (addNew acc (acc.foldl (fun l st => l ++ bridgeSuccs st) []))

/-- Every state the dispatch critical section can reach. -/
def bridgeStates : List BridgeSt := bridgeReach 20 [bridgeInit]

/-- A basic configuration: fixed default request, no callbacks, no keys, no
slots; used to instantiate the theorems on concrete runs. -/
def sBasic : ServiceState :=
  mkServiceState 0 "svc" (some (.vmsg [])) none none [] none [] none [] []

/-- A request callback that returns the userdata value stored under the key
`mut` when it is present, and returns Python `None` otherwise. -/
def mutCb : RequestCb := fun ud _ => (ud, Except.ok (ud.lookup "mut"))

/-- A response callback that always returns the label `weird`. -/
def invalidCb : ResponseCb := fun ud _ => (ud, Except.ok (some "weird"))

/-- A response callback that always raises. -/
def raisingCb : ResponseCb := fun ud _ => (ud, Except.error (.otherError "boom"))

/-- The ready environment with the preemption flag raised at entry. -/
def envPreempt : Env := { envReady (.completes (.vmsg [])) with preemptStart := true }

/-- A configuration whose request key is never present in the userdata used
with it. -/
def sMissKey : ServiceState :=
  mkServiceState 5 "svc" (some (.vmsg [])) none (some "rk") [] none [] none [] []

/-- A configuration whose response callback returns an unregistered label. -/
def sInvalid : ServiceState :=
  mkServiceState 6 "svc" (some (.vmsg [])) none none [] (some invalidCb) [] none [] []

/-- A configuration with a declared response slot `y`. -/
def sRespSlot : ServiceState :=
  mkServiceState 10 "svc" (some (.vmsg [])) none none [] none [] none ["y"] []

/-- A configuration with both a request key and a request slot configured,
exposing the order in which the two sources are applied. -/
def sPrecedence : ServiceState :=
  mkServiceState 3 "svc" (some (.vmsg [("x", .vint 0)])) none (some "rk") ["x"]
    none [] none [] []

/-- Userdata carrying both the keyed replacement request and the slot value. -/
def udPrecedence : UserData := ⟨[("rk", .vmsg [("x", .vint 7)]), ("x", .vint 5)]⟩

/-- A configuration whose response callback raises. -/
def sRaisingCb : ServiceState :=
  mkServiceState 1 "svc" (some (.vmsg [])) none none [] (some raisingCb) [] none [] []

/-- When the readiness loop observes a preemption request, it returns the
`preempted` outcome with the preemption acknowledged. -/
theorem waitLoop_of_preemptDuringWait (sname : String) (env : Env) :
    ∀ fuel i log, preemptDuringWait env fuel i →
      ∃ log', waitLoop sname env fuel i log
        = .finish (.outcome "preempted") log' true := by
  intro fuel
  induction fuel with
  | zero =>
    intro i log h
    rw [preemptDuringWait] at h
    rcases h with ⟨hexc, hready, hpre | ⟨_, _, hfalse⟩⟩
    · exact ⟨log ++ [.preemptWaiting sname], by simp [waitLoop, hexc, hready, hpre]⟩
    · cases hfalse
  | succ fuel ih =>
    intro i log h
    rw [preemptDuringWait] at h
    rcases h with ⟨hexc, hready, hpre | ⟨hpre, hok, h'⟩⟩
    · exact ⟨log ++ [.preemptWaiting sname], by simp [waitLoop, hexc, hready, hpre]⟩
    · obtain ⟨log', hl⟩ := ih (i + 1)
        (log ++ [if env.waitOk i then .connected sname else .stillWaiting sname]) h'
      exact ⟨log', by simp [waitLoop, hexc, hready, hpre, hok]; exact hl⟩

/-- When some configured slot key is missing from the userdata, the slot-copy
loop over a message object stops at the first missing key. -/
theorem applySlots_missing (ud : UserData) :
    ∀ (slots : List String) (fs : List (String × UVal)),
      (∃ k, k ∈ slots ∧ ud.lookup k = none) →
      ∃ r' k', applySlots (.vmsg fs) slots ud = .missing r' k' ∧
        k' ∈ slots ∧ ud.lookup k' = none := by
  intro slots
  induction slots with
  | nil =>
    intro fs h
    rcases h with ⟨k, hk, _⟩
    cases hk
  | cons a as ih =>
    intro fs h
    rcases h with ⟨k, hk, hkl⟩
    cases hl : ud.lookup a with
    | none =>
      exact ⟨.vmsg fs, a, by simp [applySlots, hl], List.mem_cons_self a as, hl⟩
    | some v =>
      have hk' : k ∈ as := by
        rcases List.mem_cons.mp hk with rfl | h'
        · rw [hl] at hkl; cases hkl
        · exact h'
      obtain ⟨r', k', h1, h2, h3⟩ := ih (setField fs a v) ⟨k, hk', hkl⟩
      exact ⟨r', k', by simp [applySlots, hl, h1], List.mem_cons_of_mem a h2, h3⟩

theorem nullCheckPhase_exit_calls (s3 : ServiceState) (ud1 : UserData)
    (log1 : List LogMsg) (out : ExecOut)
    (h : nullCheckPhase s3 ud1 log1 = .exit out) : out.calls = [] := by
  unfold nullCheckPhase at h
  split at h
  · injection h with h'
    rw [← h']
  · exact PhaseRes.noConfusion h

theorem requestCbPhase_exit_calls (s2 : ServiceState) (ud : UserData)
    (log1 : List LogMsg) (out : ExecOut)
    (h : requestCbPhase s2 ud log1 = .exit out) : out.calls = [] := by
  unfold requestCbPhase at h
  split at h
  · exact nullCheckPhase_exit_calls _ _ _ _ h
  · split at h
    · injection h with h'
      rw [← h']
    · exact nullCheckPhase_exit_calls _ _ _ _ h
    · exact nullCheckPhase_exit_calls _ _ _ _ h

theorem requestSlotsPhase_exit_calls (s1 : ServiceState) (ud : UserData)
    (log1 : List LogMsg) (out : ExecOut)
    (h : requestSlotsPhase s1 ud log1 = .exit out) : out.calls = [] := by
  unfold requestSlotsPhase at h
  split at h
  · injection h with h'
    rw [← h']
  · injection h with h'
    rw [← h']
  · exact requestCbPhase_exit_calls _ _ _ _ h

theorem requestPhase_exit_calls (s : ServiceState) (ud : UserData)
    (log0 : List LogMsg) (out : ExecOut)
    (h : requestPhase s ud log0 = .exit out) : out.calls = [] := by
  unfold requestPhase at h
  split at h
  · exact requestSlotsPhase_exit_calls _ _ _ _ h
  · split at h
    · exact requestSlotsPhase_exit_calls _ _ _ _ h
    · injection h with h'
      rw [← h']

theorem nullCheckPhase_go (s3 : ServiceState) (ud1 : UserData)
    (log1 : List LogMsg) (s' : ServiceState) (ud' : UserData) (log' : List LogMsg)
    (h : nullCheckPhase s3 ud1 log1 = .go s' ud' log') :
    s' = s3 ∧ ud' = ud1 ∧ log' = log1 ∧ nullStage s3.request = some s3.request := by
  unfold nullCheckPhase at h
  split at h
  · exact PhaseRes.noConfusion h
  · injection h with h1 h2 h3
    rename_i hreq
    refine ⟨h1.symm, h2.symm, h3.symm, ?_⟩
    unfold nullStage
    split
    · rename_i heq; rw [heq] at hreq; exact absurd rfl hreq  -- hmm
    · rfl

theorem requestCbPhase_go (s2 : ServiceState) (ud : UserData)
    (log1 : List LogMsg) (s3 : ServiceState) (ud1 : UserData) (log1' : List LogMsg)
    (h : requestCbPhase s2 ud log1 = .go s3 ud1 log1') :
    ∃ r3, cbStage s2.request_cb ud s2.request = some r3 ∧
      s3 = { s2 with request := r3 } ∧ log1' = log1 ∧
      nullStage r3 = some r3 := by
  unfold requestCbPhase at h
  split at h
  · rename_i hcb
    obtain ⟨h1, h2, h3, h4⟩ := nullCheckPhase_go _ _ _ _ _ _ h
    exact ⟨s2.request, by simp [cbStage, hcb], by rw [h1], h3, h4⟩
  · rename_i cb hcb
    split at h
    · exact PhaseRes.noConfusion h
    · rename_i udx heq
      obtain ⟨h1, h2, h3, h4⟩ := nullCheckPhase_go _ _ _ _ _ _ h
      exact ⟨s2.request, by simp [cbStage, hcb, heq], by rw [h1], h3, h4⟩
    · rename_i udx r1 heq
      obtain ⟨h1, h2, h3, h4⟩ := nullCheckPhase_go _ _ _ _ _ _ h
      simp only [] at h4
      exact ⟨r1, by simp [cbStage, hcb, heq], h1, h3, h4⟩

theorem requestSlotsPhase_go (s1 : ServiceState) (ud : UserData)
    (log1 : List LogMsg) (s3 : ServiceState) (ud1 : UserData) (log1' : List LogMsg)
    (h : requestSlotsPhase s1 ud log1 = .go s3 ud1 log1') :
    ∃ r2, slotsStage s1.request_slots ud s1.request = some r2 ∧
      requestCbPhase { s1 with request := r2 } ud log1 = .go s3 ud1 log1' := by
  unfold requestSlotsPhase at h
  split at h
  · exact PhaseRes.noConfusion h
  · exact PhaseRes.noConfusion h
  · rename_i r heq
    exact ⟨r, by simp [slotsStage, heq], h⟩

theorem requestPhase_go (s : ServiceState) (ud : UserData)
    (log0 : List LogMsg) (s3 : ServiceState) (ud1 : UserData) (log1 : List LogMsg)
    (h : requestPhase s ud log0 = .go s3 ud1 log1) :
    ∃ r1, keyStage s.request_key ud s.request = some r1 ∧
      requestSlotsPhase { s with request := r1 } ud log0 = .go s3 ud1 log1 := by
  unfold requestPhase at h
  split at h
  · rename_i hk
    exact ⟨s.request, by simp [keyStage, hk], h⟩
  · split at h
    · rename_i x1 kk hk x2 v hv
      exact ⟨v, by simp [keyStage, hk, hv], h⟩
    · exact PhaseRes.noConfusion h

theorem requestPhase_go_codeOrder (s : ServiceState) (ud : UserData)
    (log0 : List LogMsg) (s3 : ServiceState) (ud1 : UserData) (log1 : List LogMsg)
    (h : requestPhase s ud log0 = .go s3 ud1 log1) :
    requestCodeOrder s ud = some s3.request ∧
    s3.done_cond_id = s.done_cond_id := by
  obtain ⟨r1, hk, h⟩ := requestPhase_go _ _ _ _ _ _ h
  obtain ⟨r2, hs, h⟩ := requestSlotsPhase_go _ _ _ _ _ _ h
  obtain ⟨r3, hc, hs3, hlog, hnull⟩ := requestCbPhase_go _ _ _ _ _ _ h
  simp only [] at hs hc
  constructor
  · unfold requestCodeOrder
    rw [hk]
    simp only [Option.some_bind]
    rw [hs]
    simp only [Option.some_bind]
    rw [hc]
    simp only [Option.some_bind]
    rw [hs3]
    exact hnull
  · rw [hs3]

theorem nullCheckPhase_exit_state (s3 : ServiceState) (ud1 : UserData)
    (log1 : List LogMsg) (out : ExecOut)
    (h : nullCheckPhase s3 ud1 log1 = .exit out) : out.state = s3 := by
  unfold nullCheckPhase at h
  split at h
  · injection h with h'
    rw [← h']
  · exact PhaseRes.noConfusion h

theorem requestCbPhase_exit_done_cond (s2 : ServiceState) (ud : UserData)
    (log1 : List LogMsg) (out : ExecOut)
    (h : requestCbPhase s2 ud log1 = .exit out) :
    out.state.done_cond_id = s2.done_cond_id := by
  unfold requestCbPhase at h
  split at h
  · rw [nullCheckPhase_exit_state _ _ _ _ h]
  · split at h
    · injection h with h'
      rw [← h']
    · rw [nullCheckPhase_exit_state _ _ _ _ h]
    · rw [nullCheckPhase_exit_state _ _ _ _ h]

theorem requestSlotsPhase_exit_done_cond (s1 : ServiceState) (ud : UserData)
    (log1 : List LogMsg) (out : ExecOut)
    (h : requestSlotsPhase s1 ud log1 = .exit out) :
    out.state.done_cond_id = s1.done_cond_id := by
  unfold requestSlotsPhase at h
  split at h
  · injection h with h'
    rw [← h']
  · injection h with h'
    rw [← h']
  · rw [requestCbPhase_exit_done_cond _ _ _ _ h]

theorem requestPhase_exit_done_cond (s : ServiceState) (ud : UserData)
    (log0 : List LogMsg) (out : ExecOut)
    (h : requestPhase s ud log0 = .exit out) :
    out.state.done_cond_id = s.done_cond_id := by
  unfold requestPhase at h
  split at h
  · rw [requestSlotsPhase_exit_done_cond _ _ _ _ h]
  · split at h
    · rw [requestSlotsPhase_exit_done_cond _ _ _ _ h]
    · injection h with h'
      rw [← h']

theorem execute_calls_dispatch (s : ServiceState) (env : Env) (fuel : Nat)
    (ud : UserData) (r : UVal)
    (hc : (execute s env fuel ud).calls = [r]) :
    ∃ log0 s3 ud1 log1,
      waitLoop s.service_name env fuel 0 [] = .proceed log0 ∧
      requestPhase s ud log0 = .go s3 ud1 log1 ∧
      s3.request = r ∧ (execute s env fuel ud).state.request = r := by
  by_cases hp : env.preemptStart = true
  · simp [execute, hp] at hc
  · cases hwl : waitLoop s.service_name env fuel 0 [] with
    | finish rr lg ack => simp [execute, hp, hwl] at hc
    | proceed log0 =>
      cases hph : requestPhase s ud log0 with
      | exit out =>
        have hpe := requestPhase_exit_calls s ud log0 out hph
        simp [execute, hp, hwl, hph, hpe] at hc
      | go s3 ud1 log1 =>
        cases hsb : env.submit with
        | raises e =>
          cases hte : e.isTypeError <;>
            simp [execute, hp, hwl, hph, hsb, hte] at hc
        | hangs =>
          have hr : s3.request = r := by
            simpa [execute, hp, hwl, hph, hsb] using hc
          refine ⟨log0, s3, ud1, log1, rfl, hph, hr, ?_⟩
          simp [execute, hp, hwl, hph, hsb]
          exact hr
        | completes resp =>
          cases hrc : responseCbPhase { s3 with response := some resp } ud1 resp with
          | raise ud2 =>
            have hr : s3.request = r := by
              simpa [execute, hp, hwl, hph, hsb, hrc] using hc
            refine ⟨log0, s3, ud1, log1, rfl, hph, hr, ?_⟩
            simp [execute, hp, hwl, hph, hsb, hrc]
            exact hr
          | invalid lbl ud2 =>
            have hr : s3.request = r := by
              simpa [execute, hp, hwl, hph, hsb, hrc] using hc
            refine ⟨log0, s3, ud1, log1, rfl, hph, hr, ?_⟩
            simp [execute, hp, hwl, hph, hsb, hrc]
            exact hr
          | go o1 ud2 =>
            cases hcp : copyResponseSlots resp s3.response_slots
                (responseKeyWrite { s3 with response := some resp } ud2 resp) with
            | mk ud4 om =>
              cases om with
              | none =>
                have hr : s3.request = r := by
                  simpa [execute, hp, hwl, hph, hsb, hrc, hcp] using hc
                refine ⟨log0, s3, ud1, log1, rfl, hph, hr, ?_⟩
                simp [execute, hp, hwl, hph, hsb, hrc, hcp]
                exact hr
              | some k =>
                have hr : s3.request = r := by
                  simpa [execute, hp, hwl, hph, hsb, hrc, hcp] using hc
                refine ⟨log0, s3, ud1, log1, rfl, hph, hr, ?_⟩
                simp [execute, hp, hwl, hph, hsb, hrc, hcp]
                exact hr

/-- Claim C1, at its failing input: when the configured response callback
raises after a completed call, `execute` does not absorb the failure into the
`aborted` outcome.  The bare `except` handler of lines 216-219 evaluates
`traceback.format_exc()` but the module `traceback` is never imported by
`service_state.py`, so the handler itself raises `NameError` and that
exception escapes `execute` instead of the documented `return` of
`aborted`. -/
theorem response_cb_exception_escapes_execute :
    (execute sRaisingCb (envReady (.completes (.vmsg []))) 5 ⟨[]⟩).result
      = .raised (.nameError "traceback") := rfl

/-- Claim C2, counterexample: a synchronous submission exception that is not
a `TypeError` is not caught — `execute` lets it escape instead of returning
`aborted`, because line 192 catches only `except TypeError`. -/
theorem submit_exception_escapes_counterexample :
    (execute sBasic (envReady (.raises (.otherError "rclpy runtime error"))) 5 ⟨[]⟩).result
      = .raised (.otherError "rclpy runtime error") ∧
    ExecResult.raised (.otherError "rclpy runtime error") ≠ .outcome "aborted" :=
  ⟨rfl, by decide⟩

/-- Claim C2 as amended: a synchronous `TypeError` raised during call
submission is caught and converted to `aborted`; any other synchronous
submission exception propagates out of `execute` unchanged. -/
theorem execute_submit_exception_policy (s : ServiceState) (env : Env)
    (fuel : Nat) (ud : UserData) (log0 log1 : List LogMsg) (s3 : ServiceState)
    (ud1 : UserData) (e : PyExc)
    (hp : env.preemptStart = false)
    (hw : waitLoop s.service_name env fuel 0 [] = .proceed log0)
    (hphase : requestPhase s ud log0 = .go s3 ud1 log1)
    (hsub : env.submit = .raises e) :
    (e.isTypeError = true → (execute s env fuel ud).result = .outcome "aborted") ∧
    (e.isTypeError = false → (execute s env fuel ud).result = .raised e) := by
  have hp' : ¬ env.preemptStart = true := by simp [hp]
  constructor <;> intro hte <;> simp [execute, hp', hw, hphase, hsub, hte]

/-- Concrete instance of the submission exception policy: a `TypeError`
during submission yields the `aborted` outcome. -/
theorem execute_submit_exception_policy_witness :
    PyExc.isTypeError (.typeError "bad request type") = true ∧
    (execute sBasic (envReady (.raises (.typeError "bad request type"))) 5 ⟨[]⟩).result
      = .outcome "aborted" := by
  constructor
  · rfl
  · exact (execute_submit_exception_policy sBasic
      (envReady (.raises (.typeError "bad request type"))) 5 ⟨[]⟩ [] [] sBasic ⟨[]⟩
      (.typeError "bad request type") rfl rfl rfl rfl).1 rfl

/-- Claim C3, counterexample: with both a request key and a request slot
configured, `execute` dispatches the keyed replacement overwritten by the
slot copy (the code applies the key replacement first, lines 146-152, then
the slots, lines 154-161), whereas the precedence order written in the
specification — slots before the keyed replacement — yields the untouched
keyed value.  The two disagree on a concrete input. -/
theorem request_precedence_counterexample :
    (execute sPrecedence (envReady (.completes (.vmsg []))) 5 udPrecedence).calls
      = [.vmsg [("x", .vint 5)]] ∧
    requestClaimOrder sPrecedence udPrecedence = some (.vmsg [("x", .vint 7)]) ∧
    (UVal.vmsg [("x", .vint 5)] ≠ UVal.vmsg [("x", .vint 7)]) :=
  ⟨by decide, by decide, by decide⟩

/-- Claim C3 as amended: during request construction in `execute` the sources
are applied in the order explicit default, full blackboard-keyed replacement,
blackboard-slot field copies, then the user request callback, each later
source overriding the earlier ones when present: every dispatched request is
the result of that pipeline. -/
theorem execute_request_precedence_code_order (s : ServiceState) (env : Env)
    (fuel : Nat) (ud : UserData) (r : UVal)
    (hc : (execute s env fuel ud).calls = [r]) :
    requestCodeOrder s ud = some r := by
  obtain ⟨log0, s3, ud1, log1, hwl, hph, hr, hst⟩ :=
    execute_calls_dispatch s env fuel ud r hc
  rw [← hr]
  exact (requestPhase_go_codeOrder s ud log0 s3 ud1 log1 hph).1

/-- Concrete instance of the request-precedence pipeline on a dispatching
run. -/
theorem execute_request_precedence_code_order_witness :
    (execute sBasic (envReady (.completes (.vmsg []))) 5 ⟨[]⟩).calls = [.vmsg []] ∧
    requestCodeOrder sBasic ⟨[]⟩ = some (.vmsg []) :=
  ⟨rfl, execute_request_precedence_code_order sBasic (envReady (.completes (.vmsg [])))
    5 ⟨[]⟩ (.vmsg []) rfl⟩

/-- Claim C4: for every invocation where preemption has been requested before
dispatch — observed either by the pre-flight gate of lines 117-122 or inside
the readiness loop at lines 127-131 — `execute` acknowledges the preemption
(`service_preempt`) and returns `preempted` without issuing any remote
call. -/
theorem execute_preempted_before_dispatch (s : ServiceState) (env : Env)
    (fuel : Nat) (ud : UserData)
    (h : env.preemptStart = true ∨ preemptDuringWait env fuel 0) :
    (execute s env fuel ud).result = .outcome "preempted" ∧
    (execute s env fuel ud).calls = [] ∧
    (execute s env fuel ud).preemptAcked = true := by
  rcases h with h | h
  · simp [execute, h]
  · by_cases hp : env.preemptStart = true
    · simp [execute, hp]
    · obtain ⟨log', hl⟩ := waitLoop_of_preemptDuringWait s.service_name env fuel 0 [] h
      simp [execute, hp, hl]

/-- Concrete instance of the preemption gate: preemption requested at entry
yields `preempted` with no call and the preemption acknowledged. -/
theorem execute_preempted_before_dispatch_witness :
    envPreempt.preemptStart = true ∧
    (execute sBasic envPreempt 5 ⟨[]⟩).result = .outcome "preempted" ∧
    (execute sBasic envPreempt 5 ⟨[]⟩).calls = [] ∧
    (execute sBasic envPreempt 5 ⟨[]⟩).preemptAcked = true :=
  ⟨rfl, execute_preempted_before_dispatch sBasic envPreempt 5 ⟨[]⟩ (Or.inl rfl)⟩

/-- Claim C5: for every invocation where the configured blackboard request
key is absent from the userdata, or where the effective request is a message
and some configured request slot key is absent from the userdata, `execute`
returns `aborted` without dispatching a call, and emits a diagnostic naming
a missing key (lines 145-161). -/
theorem execute_missing_request_data_aborts (s : ServiceState) (env : Env)
    (fuel : Nat) (ud : UserData) (log0 : List LogMsg)
    (hp : env.preemptStart = false)
    (hw : waitLoop s.service_name env fuel 0 [] = .proceed log0)
    (hmiss :
      (∃ k, s.request_key = some k ∧ ud.lookup k = none) ∨
      ((∃ fs, requestAfterKey s ud = some (.vmsg fs)) ∧
        ∃ k, k ∈ s.request_slots ∧ ud.lookup k = none)) :
    (execute s env fuel ud).result = .outcome "aborted" ∧
    (execute s env fuel ud).calls = [] ∧
    ∃ k, ud.lookup k = none ∧
      (LogMsg.missingRequestKey k ud.keys ∈ (execute s env fuel ud).log ∨
       LogMsg.missingRequestSlot k ud.keys ∈ (execute s env fuel ud).log) := by
  have hp' : ¬ env.preemptStart = true := by simp [hp]
  rcases hmiss with ⟨k, hk, hkl⟩ | ⟨⟨fs, hak⟩, k, hks, hkl⟩
  · refine ⟨?_, ?_, k, hkl, Or.inl ?_⟩ <;>
      simp [execute, hp', hw, requestPhase, hk, hkl]
  · unfold requestAfterKey keyStage at hak
    cases hk : s.request_key with
    | none =>
      simp only [hk, Option.some.injEq] at hak
      obtain ⟨r', k', happ, hks', hkl'⟩ :=
        applySlots_missing ud s.request_slots fs ⟨k, hks, hkl⟩
      refine ⟨?_, ?_, k', hkl', Or.inr ?_⟩ <;>
        simp [execute, hp', hw, requestPhase, hk, requestSlotsPhase, hak, happ]
    | some k0 =>
      simp only [hk] at hak
      obtain ⟨r', k', happ, hks', hkl'⟩ :=
        applySlots_missing ud s.request_slots fs ⟨k, hks, hkl⟩
      refine ⟨?_, ?_, k', hkl', Or.inr ?_⟩ <;>
        simp [execute, hp', hw, requestPhase, hk, hak, requestSlotsPhase, happ]

/-- Concrete instance of the missing-request-key failure: the key `rk` is
absent, `execute` aborts without a call. -/
theorem execute_missing_request_data_aborts_witness :
    sMissKey.request_key = some "rk" ∧
    (⟨[]⟩ : UserData).lookup "rk" = none ∧
    (execute sMissKey (envReady (.completes (.vmsg []))) 5 ⟨[]⟩).result
      = .outcome "aborted" ∧
    (execute sMissKey (envReady (.completes (.vmsg []))) 5 ⟨[]⟩).calls = [] := by
  refine ⟨rfl, rfl, ?_, ?_⟩
  · exact (execute_missing_request_data_aborts sMissKey
      (envReady (.completes (.vmsg []))) 5 ⟨[]⟩ [] rfl rfl
      (Or.inl ⟨"rk", rfl, rfl⟩)).1
  · exact (execute_missing_request_data_aborts sMissKey
      (envReady (.completes (.vmsg []))) 5 ⟨[]⟩ [] rfl rfl
      (Or.inl ⟨"rk", rfl, rfl⟩)).2.1

/-- Claim C6: for every invocation where the configured response callback
returns a label outside the registered outcome set, `execute` returns
`aborted` (lines 212-215) and never returns the invalid label. -/
theorem execute_invalid_cb_outcome_aborts (s : ServiceState) (env : Env)
    (fuel : Nat) (ud : UserData) (log0 log1 : List LogMsg) (s3 : ServiceState)
    (ud1 ud2 : UserData) (resp : UVal) (cb : ResponseCb) (lbl : String)
    (hp : env.preemptStart = false)
    (hw : waitLoop s.service_name env fuel 0 [] = .proceed log0)
    (hphase : requestPhase s ud log0 = .go s3 ud1 log1)
    (hsub : env.submit = .completes resp)
    (hcb : s3.response_cb = some cb)
    (hcbv : cb ud1 resp = (ud2, Except.ok (some lbl)))
    (hinvalid : lbl ∉ s3.registered_outcomes)
    (hab : "aborted" ∈ s3.registered_outcomes) :
    (execute s env fuel ud).result = .outcome "aborted" ∧
    (execute s env fuel ud).result ≠ .outcome lbl := by
  have hp' : ¬ env.preemptStart = true := by simp [hp]
  have hne : lbl ≠ "aborted" := fun he => hinvalid (he ▸ hab)
  have hrp : responseCbPhase { s3 with response := some resp } ud1 resp
      = .invalid lbl ud2 := by
    simp [responseCbPhase, hcb, hcbv, hinvalid]
  constructor
  · simp [execute, hp', hw, hphase, hsub, hrp]
  · simp [execute, hp', hw, hphase, hsub, hrp]
    exact fun he => hne he.symm

/-- Concrete instance of the invalid-outcome guard: a callback returning the
unregistered label `weird` yields `aborted`, not `weird`. -/
theorem execute_invalid_cb_outcome_aborts_witness :
    invalidCb ⟨[]⟩ (.vmsg []) = (⟨[]⟩, Except.ok (some "weird")) ∧
    sInvalid.registered_outcomes.contains "weird" = false ∧
    (execute sInvalid (envReady (.completes (.vmsg []))) 5 ⟨[]⟩).result
      = .outcome "aborted" ∧
    (execute sInvalid (envReady (.completes (.vmsg []))) 5 ⟨[]⟩).result
      ≠ .outcome "weird" := by
  refine ⟨rfl, by decide, ?_, ?_⟩
  · exact (execute_invalid_cb_outcome_aborts sInvalid
      (envReady (.completes (.vmsg []))) 5 ⟨[]⟩ [] [] sInvalid ⟨[]⟩ ⟨[]⟩ (.vmsg [])
      invalidCb "weird" rfl rfl rfl rfl rfl rfl (by decide) (by decide)).1
  · exact (execute_invalid_cb_outcome_aborts sInvalid
      (envReady (.completes (.vmsg []))) 5 ⟨[]⟩ [] [] sInvalid ⟨[]⟩ ⟨[]⟩ (.vmsg [])
      invalidCb "weird" rfl rfl rfl rfl rfl rfl (by decide) (by decide)).2

/-- Claim C7, counterexample: the completion condition is not constructed
fresh per call to `execute` — it is allocated once at construction
(line 111, identity 42 here) and two successive invocations of `execute`
both leave that same instance in place. -/
theorem bridge_not_fresh_per_invocation :
    (execute (mkServiceState 42 "svc" (some (.vmsg [])) none none [] none [] none [] [])
        (envReady (.completes (.vmsg []))) 5 ⟨[]⟩).state.done_cond_id = 42 ∧
    (execute
        (execute (mkServiceState 42 "svc" (some (.vmsg [])) none none [] none [] none [] [])
          (envReady (.completes (.vmsg []))) 5 ⟨[]⟩).state
        (envReady (.completes (.vmsg []))) 5 ⟨[]⟩).state.done_cond_id = 42 :=
  ⟨rfl, rfl⟩

/-- Claim C7 as amended: the Completion Bridge (`self._done_cond`) is
step-scoped, not invocation-scoped: every invocation of `execute` leaves the
condition object allocated by `__init__` unchanged, so successive
invocations share one bridge instance. -/
theorem execute_preserves_done_cond (s : ServiceState) (env : Env) (fuel : Nat)
    (ud : UserData) :
    (execute s env fuel ud).state.done_cond_id = s.done_cond_id := by
  by_cases hp : env.preemptStart = true
  · simp [execute, hp]
  · cases hwl : waitLoop s.service_name env fuel 0 [] with
    | finish rr lg ack => simp [execute, hp, hwl]
    | proceed log0 =>
      cases hph : requestPhase s ud log0 with
      | exit out =>
        have hdc := requestPhase_exit_done_cond s ud log0 out hph
        simp [execute, hp, hwl, hph, hdc]
      | go s3 ud1 log1 =>
        have hdc := (requestPhase_go_codeOrder s ud log0 s3 ud1 log1 hph).2
        cases hsb : env.submit with
        | raises e =>
          cases hte : e.isTypeError <;>
            (simp [execute, hp, hwl, hph, hsb, hte]; exact hdc)
        | hangs =>
          simp [execute, hp, hwl, hph, hsb]
          exact hdc
        | completes resp =>
          cases hrc : responseCbPhase { s3 with response := some resp } ud1 resp with
          | raise ud2 =>
            simp [execute, hp, hwl, hph, hsb, hrc]
            exact hdc
          | invalid lbl ud2 =>
            simp [execute, hp, hwl, hph, hsb, hrc]
            exact hdc
          | go o1 ud2 =>
            cases hcp : copyResponseSlots resp s3.response_slots
                (responseKeyWrite { s3 with response := some resp } ud2 resp) with
            | mk ud4 om =>
              cases om <;> (simp [execute, hp, hwl, hph, hsb, hrc, hcp]; exact hdc)

/-- Claim C8, counterexample: the request is not invocation-scoped.  Two
second invocations with identical userdata and environment dispatch
different requests, depending only on whether the first invocation's request
callback replaced `self._request`: the mutation leaks across invocations
through the step state. -/
theorem request_not_invocation_scoped :
    (execute
      (execute (mkServiceState 7 "svc" (some (.vmsg [("x", .vint 0)])) (some mutCb)
          none [] none [] none [] [])
        (envReady (.completes (.vmsg []))) 5 ⟨[("mut", .vmsg [("x", .vint 99)])]⟩).state
      (envReady (.completes (.vmsg []))) 5 ⟨[]⟩).calls
    ≠
    (execute
      (execute (mkServiceState 7 "svc" (some (.vmsg [("x", .vint 0)])) (some mutCb)
          none [] none [] none [] [])
        (envReady (.completes (.vmsg []))) 5 ⟨[]⟩).state
      (envReady (.completes (.vmsg []))) 5 ⟨[]⟩).calls := by decide

/-- Claim C8 as amended: the request is step-scoped: the request dispatched
by an invocation is exactly the value stored in `self._request` when
`execute` returns, which is the starting request of the next invocation, so
request mutations persist across invocations. -/
theorem execute_request_persists_in_state (s : ServiceState) (env : Env)
    (fuel : Nat) (ud : UserData) (r : UVal)
    (hc : (execute s env fuel ud).calls = [r]) :
    (execute s env fuel ud).state.request = r := by
  obtain ⟨log0, s3, ud1, log1, hwl, hph, hr, hst⟩ :=
    execute_calls_dispatch s env fuel ud r hc
  exact hst

/-- Concrete instance of request persistence on a dispatching run. -/
theorem execute_request_persists_in_state_witness :
    (execute sBasic (envReady (.completes (.vmsg []))) 5 ⟨[]⟩).calls = [.vmsg []] ∧
    (execute sBasic (envReady (.completes (.vmsg []))) 5 ⟨[]⟩).state.request
      = .vmsg [] :=
  ⟨rfl, execute_request_persists_in_state sBasic (envReady (.completes (.vmsg [])))
    5 ⟨[]⟩ (.vmsg []) rfl⟩

set_option maxHeartbeats 1000000 in
/-- Claim C9: in the interleaving model of the dispatch critical section
(lines 185-197) and `_done_cb` (lines 232-241), call submission and handler
registration happen while the waiter holds `self._done_cond`, so a
completion firing immediately after submission cannot deliver its `notify`
before the waiter is in the wait set: every reachable stuck state of the
model is the fully terminated one in which the waiter has observed the
written response — no lost wakeup and no deadlock. -/
theorem dispatch_no_lost_wakeup :
    bridgeInit ∈ bridgeStates ∧
    (∀ s ∈ bridgeStates, ∀ t ∈ bridgeSuccs s, t ∈ bridgeStates) ∧
    (∀ s ∈ bridgeStates, bridgeSuccs s = [] →
      s.wpc = 5 ∧ s.dpc = 4 ∧ s.observed = true) := by decide

/-- Concrete instance of the dispatch model: the initial state and its first
step are among the certified reachable states. -/
theorem dispatch_no_lost_wakeup_witness :
    bridgeInit ∈ bridgeStates ∧
    ({ bridgeInit with lock := 1, wpc := 1 } ∈ bridgeStates) :=
  ⟨dispatch_no_lost_wakeup.1,
    dispatch_no_lost_wakeup.2.1 bridgeInit dispatch_no_lost_wakeup.1
      { bridgeInit with lock := 1, wpc := 1 } (by decide)⟩

/-- Claim C10: for every invocation where the remote call completes but the
response object lacks an attribute named by one of the declared response
slots, `execute` raises `AttributeError` from the slot-copy step of
lines 224-225 instead of returning an outcome label. -/
theorem execute_missing_response_slot_raises (s : ServiceState) (env : Env)
    (fuel : Nat) (ud : UserData) (log0 log1 : List LogMsg) (s3 : ServiceState)
    (ud1 ud2 ud4 : UserData) (resp : UVal) (outcome1 : Option String) (k : String)
    (hp : env.preemptStart = false)
    (hw : waitLoop s.service_name env fuel 0 [] = .proceed log0)
    (hphase : requestPhase s ud log0 = .go s3 ud1 log1)
    (hsub : env.submit = .completes resp)
    (hrcb : responseCbPhase { s3 with response := some resp } ud1 resp
        = .go outcome1 ud2)
    (hcopy : copyResponseSlots resp s3.response_slots
        (responseKeyWrite { s3 with response := some resp } ud2 resp)
        = (ud4, some k)) :
    (execute s env fuel ud).result = .raised (.attributeError k) ∧
    ∀ lbl, (execute s env fuel ud).result ≠ .outcome lbl := by
  have hp' : ¬ env.preemptStart = true := by simp [hp]
  constructor
  · simp [execute, hp', hw, hphase, hsub, hrcb, hcopy]
  · intro lbl
    simp [execute, hp', hw, hphase, hsub, hrcb, hcopy]

/-- Concrete instance of the response-slot failure: the response lacks the
declared slot `y`, so `execute` raises `AttributeError` rather than
returning an outcome. -/
theorem execute_missing_response_slot_raises_witness :
    copyResponseSlots (.vmsg []) sRespSlot.response_slots
      (responseKeyWrite { sRespSlot with response := some (.vmsg []) } ⟨[]⟩ (.vmsg []))
      = (⟨[]⟩, some "y") ∧
    (execute sRespSlot (envReady (.completes (.vmsg []))) 5 ⟨[]⟩).result
      = .raised (.attributeError "y") ∧
    (execute sRespSlot (envReady (.completes (.vmsg []))) 5 ⟨[]⟩).result
      ≠ .outcome "succeeded" := by
  refine ⟨rfl, ?_, ?_⟩
  · exact (execute_missing_response_slot_raises sRespSlot
      (envReady (.completes (.vmsg []))) 5 ⟨[]⟩ [] [] sRespSlot ⟨[]⟩ ⟨[]⟩ ⟨[]⟩
      (.vmsg []) none "y" rfl rfl rfl rfl rfl rfl).1
  · exact (execute_missing_response_slot_raises sRespSlot
      (envReady (.completes (.vmsg []))) 5 ⟨[]⟩ [] [] sRespSlot ⟨[]⟩ ⟨[]⟩ ⟨[]⟩
      (.vmsg []) none "y" rfl rfl rfl rfl rfl rfl).2 "succeeded"

end ServiceStateModel
